import Mathlib

/-!
# durchblick: audio mixer controls and plugin entry points

A shallow embedding of `src/util/mixer_renderer.cpp` and `src/plugin.cpp`.

Conventions of the embedding.

* `int` values are mathematical integers.  The two places of `MixerSlider::MouseEvent` where
  the 32-bit width is observable are explicit: the conversion `int(my)` of a `uint32_t`
  (`toInt32`) and the `int` subtraction that follows it (`wrapInt32`).
* `float` and `double` expressions are evaluated without rounding: a finite value is an exact
  rational (`FloatVal.fin`), and the three special values a division by zero produces are kept.
* The host (libobs, the frontend API, Qt) is a `World`: the faders it has created, the number
  of objects allocated with `new`, and the log of the calls that change host state.
* Members that are declared in `mixer_renderer.hpp` and not defined in the two source files
  (`get_width`, `slider_position`, the two hit tests, the base class `Render`) and the host
  query `obs_fader_get_db` are parameters, collected in `Decls`.
-/

namespace Durchblick

/-! ## Numbers -/

/-- Two's-complement reduction of an integer to the range of a 32-bit `int`. -/
def wrapInt32 (n : Int) : Int := (n + 2 ^ 31) % 2 ^ 32 - 2 ^ 31

/-- The conversion `int(v)` of a `uint32_t` value `v`. -/
def toInt32 (v : Nat) : Int := wrapInt32 (v : Int)

/-- Values of a `float` expression: exact rationals and the IEEE special values. -/
inductive FloatVal where
  | fin (q : ℚ)
  | pinf
  | ninf
  | nan
  deriving DecidableEq

namespace FloatVal

/-- The conversion `float(n)` of an `int`. -/
def ofInt (n : Int) : FloatVal := fin (n : ℚ)

/-- The comparison `a < b`; every comparison with a NaN is false. -/
def lt : FloatVal → FloatVal → Bool
  | fin a, fin b => decide (a < b)
  | fin _, pinf => true
  | ninf, fin _ => true
  | ninf, pinf => true
  | _, _ => false

/-- The division `a / b` of two values that are finite (the only case the sources reach). -/
def div : FloatVal → FloatVal → FloatVal
  | fin a, fin b =>
    if b = 0 then (if a = 0 then nan else if 0 < a then pinf else ninf) else fin (a / b)
  | _, _ => nan

/-- The subtraction `a - b`. -/
def sub : FloatVal → FloatVal → FloatVal
  | fin a, fin b => fin (a - b)
  | fin _, pinf => ninf
  | fin _, ninf => pinf
  | pinf, fin _ => pinf
  | pinf, ninf => pinf
  | ninf, fin _ => ninf
  | ninf, pinf => ninf
  | _, _ => nan

end FloatVal

/-- Qt: `qMin(a, b)` is `(a < b) ? a : b`. -/
def qMinF (a b : FloatVal) : FloatVal := if FloatVal.lt a b then a else b

/-- Qt: `qMax(a, b)` is `(a < b) ? b : a`. -/
def qMaxF (a b : FloatVal) : FloatVal := if FloatVal.lt a b then b else a

/-- Qt: `qBound(min, val, max)` is `qMax(min, qMin(max, val))`. -/
def qBound (min val max : FloatVal) : FloatVal := qMaxF min (qMinF max val)

/-- Qt: `qMax(a, b)` on `int`. -/
def qMax (a b : Int) : Int := if a < b then b else a

/-- Conversion of a finite floating value to `int`: truncation toward zero. -/
def truncToInt (q : ℚ) : Int := if 0 ≤ q then ⌊q⌋ else ⌈q⌉

/-- A source as the host API shows it: `obs_source_get_name`, `obs_source_get_output_flags`,
`obs_source_active`, `obs_source_audio_active`.  A name is a sequence of `char`. -/
structure OBSSource where
  id : Nat
  name : List Char
  output_flags : Nat
  active : Bool
  audio_active : Bool
  deriving DecidableEq

/-- Host constant `OBS_SOURCE_AUDIO`, `(1 << 1)` in `obs-source.h`. -/
def OBS_SOURCE_AUDIO : Nat := 2

/-- Host enumeration `obs_fader_type`. -/
inductive obs_fader_type where
  | OBS_FADER_CUBIC
  | OBS_FADER_IEC
  | OBS_FADER_LOG
  deriving DecidableEq

/-- The functions that the sources register as fader callbacks. -/
inductive FaderCallbackFn where
  | fader_update
  deriving DecidableEq

/-- A registered callback: the function and its `void* data`, here the identity of a slider. -/
structure FaderCallback where
  fn : FaderCallbackFn
  data : Nat
  deriving DecidableEq

/-- A fader object of the host. -/
structure obs_fader where
  type : obs_fader_type
  callbacks : List FaderCallback
  source : Option OBSSource
  deflection : Option FloatVal
  destroyed : Bool
  deriving DecidableEq

/-- A call into the host that changes what the user hears. -/
inductive HostCall where
  | fader_set_deflection (fader : Option Nat) (deflection : FloatVal)
  | source_set_muted (source : OBSSource) (muted : Bool)
  deriving DecidableEq

/-- Host state.  An `obs_fader_t*` is `none` (null) or `some i`, the index of the fader in
`faders`, which keeps every fader ever created; `sources` is what `obs_enum_sources`
enumerates, in its order; `heap_next` is the identity the next `new MixerSlider` gets, the
number of objects allocated so far. -/
structure World where
  sources : List OBSSource
  faders : List obs_fader
  heap_next : Nat
  calls : List HostCall
  deriving DecidableEq

/-- Apply `f` to the fader a pointer designates; a null or unknown pointer changes nothing. -/
def World.modifyFader (w : World) (p : Option Nat) (f : obs_fader → obs_fader) : World :=
  match p with
  | none => w
  | some i => { w with faders := w.faders.modify f i }

/-- Host API `obs_fader_create`: a new fader of the given type, without callbacks or source. -/
def obs_fader_create (w : World) (t : obs_fader_type) : World × Option Nat :=
  ({ w with faders := w.faders ++ [⟨t, [], none, none, false⟩] }, some w.faders.length)

/-- Host API `obs_fader_add_callback`. -/
def obs_fader_add_callback (w : World) (p : Option Nat) (fn : FaderCallbackFn) (data : Nat) :
    World :=
  w.modifyFader p fun f => { f with callbacks := f.callbacks ++ [⟨fn, data⟩] }

/-- Host API `obs_fader_remove_callback`: erases the first matching registration. -/
def obs_fader_remove_callback (w : World) (p : Option Nat) (fn : FaderCallbackFn) (data : Nat) :
    World :=
  w.modifyFader p fun f => { f with callbacks := f.callbacks.erase ⟨fn, data⟩ }

/-- Host API `obs_fader_detach_source`. -/
def obs_fader_detach_source (w : World) (p : Option Nat) : World :=
  w.modifyFader p fun f => { f with source := none }

/-- Host API `obs_fader_attach_source`. -/
def obs_fader_attach_source (w : World) (p : Option Nat) (src : OBSSource) : World :=
  w.modifyFader p fun f => { f with source := some src }

/-- Host API `obs_fader_destroy`: detaches the source, frees the callbacks and the fader. -/
def obs_fader_destroy (w : World) (p : Option Nat) : World :=
  w.modifyFader p fun f => { f with callbacks := [], source := none, destroyed := true }

/-- Host API `obs_fader_set_deflection`. -/
def obs_fader_set_deflection (w : World) (p : Option Nat) (d : FloatVal) : World :=
  let w1 := w.modifyFader p fun f => { f with deflection := some d }
  { w1 with calls := w1.calls ++ [HostCall.fader_set_deflection p d] }

/-- Host API `obs_source_set_muted`. -/
def obs_source_set_muted (w : World) (src : OBSSource) (muted : Bool) : World :=
  { w with calls := w.calls ++ [HostCall.source_set_muted src muted] }

/-- Host API `obs_enum_sources`: calls `cb` on each source until it returns `false`. -/
def obs_enum_sources {α : Type} (cb : α → OBSSource → α × Bool) : α → List OBSSource → α
  | param, [] => param
  | param, src :: rest =>
    match cb param src with
    | (p, true) => obs_enum_sources cb p rest
    | (p, false) => p

/-! ## Qt events -/

/-- `LayoutItem::MouseData`: the button mask `QMouseEvent::buttons()` and the `QEvent::Type`. -/
structure MouseData where
  buttons : Nat
  type : Nat
  deriving DecidableEq

/-- Qt constant `Qt::LeftButton`. -/
def Qt_LeftButton : Nat := 1

/-- Qt constant `QEvent::MouseButtonPress`. -/
def QEvent_MouseButtonPress : Nat := 2

/-- Qt constant `QEvent::MouseButtonRelease`. -/
def QEvent_MouseButtonRelease : Nat := 3

/-- Qt constant `QEvent::MouseMove`. -/
def QEvent_MouseMove : Nat := 5

/-! ## Drawing -/

/-- A colour built by `ARGB32(a, r, g, b)`. -/
structure Color where
  a : Nat
  r : Nat
  g : Nat
  b : Nat
  deriving DecidableEq

/-- The label source made by `CreateLabel(text, size, flags)`. -/
structure Label where
  text : List Char
  size : Int
  flags : Int
  deriving DecidableEq

/-- One drawing call, with the translation `(tx, ty)` that is on the matrix stack when it is
issued. -/
inductive DrawCall where
  | rectangle (tx ty : Int) (x y w h : Int) (color : Color)
  | label (tx ty : Int) (l : Option Label)
  deriving DecidableEq

/-! ## MixerMeter and MixerSlider -/

/-- The members of the base class `MixerMeter` that `MixerSlider` reads. -/
structure MixerMeter where
  m_source : OBSSource
  m_x : Int
  m_y : Int
  m_height : Int
  m_channel_width : Int
  m_muted : Bool
  m_foreground_nominal_color : Color
  deriving DecidableEq

/-- A `MixerSlider` object; `this` identifies the object, by the number of its allocation. -/
structure MixerSlider extends MixerMeter where
  this : Nat
  m_fader : Option Nat
  m_db : FloatVal
  m_label : Option Label
  m_dragging_volume : Bool
  m_lmb_down : Bool
  deriving DecidableEq

/-- What `mixer_renderer.cpp` uses and does not define: members declared in
`mixer_renderer.hpp` and the host query `obs_fader_get_db`.  The hit tests and `get_width`
read the meter; `slider_position` returns a finite `float`. -/
structure Decls where
  get_width : MixerMeter → Int
  slider_position : MixerSlider → ℚ
  mouse_over_slider : MixerMeter → Nat → Nat → Bool
  mouse_over_mute_area : MixerMeter → Nat → Nat → Bool
  MixerMeter_Render : MixerMeter → List DrawCall
  obs_fader_get_db : World → Option Nat → FloatVal

/-- Modelled from the spec: the constructor of the base class `MixerMeter` (declared in
`mixer_renderer.hpp`), which keeps its arguments in the members of the same names. -/
def MixerMeter.new (src : OBSSource) (x y height channel_width : Int) : MixerMeter :=
  { m_source := src, m_x := x, m_y := y, m_height := height, m_channel_width := channel_width,
    m_muted := false, m_foreground_nominal_color := ⟨255, 0, 0, 0⟩ }

/-- Modelled from the spec: `MixerMeter::set_source` (declared in `mixer_renderer.hpp`), which
makes `src` the source of the meter. -/
def MixerMeter.set_source (m : MixerMeter) (src : OBSSource) : MixerMeter :=
  { m with m_source := src }

/-- Modelled from the spec: `MixerMeter::set_type` (declared in `mixer_renderer.hpp`); it
concerns the level meter only and changes none of the members kept here. -/
def MixerMeter.set_type (m : MixerMeter) (_t : obs_fader_type) : MixerMeter := m

/-- Modelled from the spec: `MixerSlider::set_db` (declared in `mixer_renderer.hpp`), which
stores the level in `m_db`. -/
def MixerSlider.set_db (s : MixerSlider) (db : FloatVal) : MixerSlider :=
  { s with m_db := db }

/-- `MixerSlider::MixerSlider`: allocation by `new` and the base constructor; the members of
the slider itself start from their default initialisers. -/
def MixerSlider.new (w : World) (src : OBSSource) (x y height channel_width : Int) :
    World × MixerSlider :=
  ({ w with heap_next := w.heap_next + 1 },
   { toMixerMeter := MixerMeter.new src x y height channel_width,
     this := w.heap_next, m_fader := none, m_db := FloatVal.fin 0, m_label := none,
     m_dragging_volume := false, m_lmb_down := false })

/-- `MixerSlider::~MixerSlider`. -/
def MixerSlider.destroy (w : World) (s : MixerSlider) : World :=
  let w := obs_fader_remove_callback w s.m_fader FaderCallbackFn.fader_update s.this
  obs_fader_destroy w s.m_fader

/-- The text `MixerSlider::set_source` passes to `CreateLabel`. -/
def label_text (name : List Char) : List Char :=
  if name.length > 30 then name.take 27 ++ ['.', '.', '.'] else name

/-- `CreateLabel(text, size, flags)`. -/
def CreateLabel (text : List Char) (size flags : Int) : Option Label := some ⟨text, size, flags⟩

/-- `MixerSlider::set_source`. -/
def MixerSlider.set_source (D : Decls) (w : World) (s : MixerSlider) (src : OBSSource) :
    World × MixerSlider :=
  let s := { s with toMixerMeter := s.toMixerMeter.set_source src }
  let name := label_text src.name
  let s := { s with m_label := CreateLabel name 140 1 }
  let w := obs_fader_detach_source w s.m_fader
  let w := obs_fader_attach_source w s.m_fader s.m_source
  (w, s.set_db (D.obs_fader_get_db w s.m_fader))

/-- `MixerSlider::set_type`. -/
def MixerSlider.set_type (w : World) (s : MixerSlider) (t : obs_fader_type) :
    World × MixerSlider :=
  let s := { s with toMixerMeter := s.toMixerMeter.set_type t }
  let w := obs_fader_remove_callback w s.m_fader FaderCallbackFn.fader_update s.this
  let w := obs_fader_destroy w s.m_fader
  let (w, f) := obs_fader_create w t
  let s := { s with m_fader := f }
  (obs_fader_add_callback w s.m_fader FaderCallbackFn.fader_update s.this, s)

/-- The deflection `1 - fade` that a drag event computes from the pointer's `my`. -/
def drag_deflection (m_y m_height : Int) (my : Nat) : FloatVal :=
  let fade := qBound (FloatVal.fin 0)
    (FloatVal.div (FloatVal.ofInt (wrapInt32 (qMax m_y (toInt32 my) - m_y)))
      (FloatVal.ofInt m_height))
    (FloatVal.fin 1)
  FloatVal.sub (FloatVal.ofInt 1) fade

/-- `MixerSlider::MouseEvent`. -/
def MixerSlider.MouseEvent (D : Decls) (w : World) (s : MixerSlider) (e : MouseData)
    (mx my : Nat) : World × MixerSlider :=
  let (w, s) :=
    if e.buttons &&& Qt_LeftButton ≠ 0 then
      let s :=
        if D.mouse_over_slider s.toMixerMeter mx my then
          (if !s.m_dragging_volume then { s with m_dragging_volume := true } else s)
        else s
      let (w, s) :=
        if s.m_dragging_volume then
          let w := obs_fader_set_deflection w s.m_fader (drag_deflection s.m_y s.m_height my)
          (w, s.set_db (D.obs_fader_get_db w s.m_fader))
        else (w, s)
      let s :=
        if D.mouse_over_mute_area s.toMixerMeter mx my && e.type == QEvent_MouseButtonPress then
          { s with m_lmb_down := true }
        else s
      (w, s)
    else
      let s := { s with m_dragging_volume := false }
      let s :=
        if !D.mouse_over_mute_area s.toMixerMeter mx my then { s with m_lmb_down := false }
        else s
      (w, s)
  if e.type == QEvent_MouseButtonRelease && s.m_lmb_down then
    (obs_source_set_muted w s.m_source (!s.m_muted), { s with m_lmb_down := false })
  else (w, s)

/-! ## AudioMixerRenderer -/

/-- The members of `AudioMixerRenderer`; `m_sliders` owns its sliders. -/
structure AudioMixerRenderer where
  m_height : Int
  m_channel_width : Int
  m_sliders : List MixerSlider
  deriving DecidableEq

/-- The callback `AudioMixerRenderer::UpdateSources` passes to `obs_enum_sources`. -/
def enum_callback (srcs : List OBSSource) (src : OBSSource) : List OBSSource × Bool :=
  let flags := src.output_flags
  let srcs :=
    if (flags &&& OBS_SOURCE_AUDIO) != 0 && src.active then
      (if src.audio_active then srcs ++ [src] else srcs)
    else srcs
  (srcs, true)

/-- The `for` loop of `AudioMixerRenderer::UpdateSources`. -/
def UpdateSources_loop (D : Decls) :
    List OBSSource → World → AudioMixerRenderer → Int → World × AudioMixerRenderer
  | [], w, r, _ => (w, r)
  | src :: rest, w, r, x =>
    let (w, slider) := MixerSlider.new w src x 0 r.m_height r.m_channel_width
    let (w, slider) := slider.set_type w obs_fader_type.OBS_FADER_LOG
    let (w, slider) := slider.set_source D w src
    let r := { r with m_sliders := r.m_sliders ++ [slider] }
    let x := truncToInt ((x : ℚ) +
      ((r.m_channel_width * D.get_width slider.toMixerMeter : Int) : ℚ) * (5 / 2))
    UpdateSources_loop D rest w r x

/-- `AudioMixerRenderer::UpdateSources`; `m_sliders.clear()` runs the destructor of every
slider the list owns.  The result of `obs_frontend_get_current_scene()` is not used. -/
def AudioMixerRenderer.UpdateSources (D : Decls) (w : World) (r : AudioMixerRenderer) :
    World × AudioMixerRenderer :=
  let w := r.m_sliders.foldl MixerSlider.destroy w
  let r := { r with m_sliders := [] }
  let active_audio_srcs := obs_enum_sources enum_callback [] w.sources
  UpdateSources_loop D active_audio_srcs w r 35

/-- `AudioMixerRenderer::MouseEvent`, with the pointer position `m_parent` reports. -/
def AudioMixerRenderer.MouseEvent (D : Decls) (w : World) (r : AudioMixerRenderer)
    (e : MouseData) (mx my : Nat) : World × AudioMixerRenderer :=
  let step := fun (acc : World × List MixerSlider) (s : MixerSlider) =>
    let (w, s) := s.MouseEvent D acc.1 e mx my
    (w, acc.2 ++ [s])
  let (w, sliders) := r.m_sliders.foldl step (w, [])
  (w, { r with m_sliders := sliders })

/-- The `obs_fader_set_deflection` calls of the log: fader pointer and deflection. -/
def World.deflections (w : World) : List (Option Nat × FloatVal) :=
  w.calls.filterMap fun c =>
    match c with
    | HostCall.fader_set_deflection p d => some (p, d)
    | _ => none

/-- The `obs_source_set_muted` calls of the log: source and new mute state. -/
def World.mutes (w : World) : List (OBSSource × Bool) :=
  w.calls.filterMap fun c =>
    match c with
    | HostCall.source_set_muted src m => some (src, m)
    | _ => none

/-! ## plugin.cpp -/

/-- A call `plugin.cpp` makes into the rest of the plugin, the frontend or Qt. -/
inductive PluginCall where
  | add_tools_menu_qaction
  | Config_Load
  | show (db : Option Nat)
  | Registry_Free
  deriving DecidableEq

/-- The state `plugin.cpp` works on: the pointer `Config::db` (`none` is null), the rest of
the plugin's state `env`, and the log of calls. -/
structure PluginState (E : Type) where
  Config_db : Option Nat
  env : E
  calls : List PluginCall

/-- What `plugin.cpp` calls and does not define: `Config::Load` may replace `Config::db`,
`Registry::Free` works on the rest of the state. -/
structure PluginDecls (E : Type) where
  Config_Load : E → Option Nat → E × Option Nat
  Registry_Free : E → E

/-- The slot `obs_module_load` connects to `QAction::triggered`. -/
def tools_menu_triggered {E : Type} (P : PluginDecls E) (s : PluginState E) : PluginState E :=
  let s :=
    if s.Config_db.isNone then
      let r := P.Config_Load s.env s.Config_db
      { Config_db := r.2, env := r.1, calls := s.calls ++ [PluginCall.Config_Load] }
    else s
  { s with calls := s.calls ++ [PluginCall.show s.Config_db] }

/-- `obs_module_load`: adds the tools-menu action whose slot is `tools_menu_triggered`.  (The
detached thread that registers the default items is outside the embedding.) -/
def obs_module_load {E : Type} (s : PluginState E) : PluginState E × Bool :=
  ({ s with calls := s.calls ++ [PluginCall.add_tools_menu_qaction] }, true)

/-- `obs_module_unload`. -/
def obs_module_unload {E : Type} (P : PluginDecls E) (s : PluginState E) : PluginState E :=
  { Config_db := none, env := P.Registry_Free s.env,
    calls := s.calls ++ [PluginCall.Registry_Free] }

/-- The number of `Config::Load` calls in the log. -/
def PluginState.loads {E : Type} (s : PluginState E) : Nat :=
  s.calls.count PluginCall.Config_Load

/-- The state after `n` triggers of the tools-menu action in a row. -/
def triggers {E : Type} (P : PluginDecls E) : Nat → PluginState E → PluginState E
  | 0, s => s
  | n + 1, s => triggers P n (tools_menu_triggered P s)

/-! ## Concrete objects for the examples -/

/-- A source with audio output that is active, named "Mic". -/
def exSource : OBSSource :=
  { id := 1, name := ['M', 'i', 'c'], output_flags := 2, active := true, audio_active := true }

/-- Declarations for the examples: meters 10 wide, the slider hit test accepts the rows
`0 .. 99`, the mute hit test the rows from `110` on. -/
def exDecls : Decls :=
  { get_width := fun _ => 10
    slider_position := fun _ => 1 / 2
    mouse_over_slider := fun _ _ my => decide (my < 100)
    mouse_over_mute_area := fun _ _ my => decide (110 ≤ my)
    MixerMeter_Render := fun _ => []
    obs_fader_get_db := fun _ _ => FloatVal.fin 0 }

/-- A host that enumerates `exSource` and has created no fader yet. -/
def exWorld0 : World := { sources := [exSource], faders := [], heap_next := 0, calls := [] }

/-- The host and the slider after `new MixerSlider(exSource, 35, 0, 100, 3)`,
`set_type(OBS_FADER_LOG)` and `set_source(exSource)`: a slider at `m_y = 0` of height `100`
that holds fader 0. -/
def exBuilt : World × MixerSlider :=
  let r := MixerSlider.new exWorld0 exSource 35 0 100 3
  let r := r.2.set_type r.1 obs_fader_type.OBS_FADER_LOG
  r.2.set_source exDecls r.1 exSource

/-- The host of the examples. -/
def exWorld : World := exBuilt.1

/-- The slider of the examples. -/
def exSlider : MixerSlider := exBuilt.2

/-! ## Auxiliary definitions for the statements -/

/-- Plugin declarations for the examples: `Config::Load` creates the dialog at address 7. -/
def exPluginDecls : PluginDecls Unit :=
  { Config_Load := fun _ _ => ((), some 7), Registry_Free := fun _ => () }

/-- The plugin state right after `obs_module_load`. -/
def exPluginState : PluginState Unit :=
  (obs_module_load { Config_db := none, env := (), calls := [] }).1

/-- The condition under which `MixerSlider::MouseEvent` reaches `obs_fader_set_deflection`. -/
def dragging (D : Decls) (s : MixerSlider) (e : MouseData) (mx my : Nat) : Prop :=
  e.buttons &&& Qt_LeftButton ≠ 0 ∧
    (D.mouse_over_slider s.toMixerMeter mx my = true ∨ s.m_dragging_volume = true)

/-- The value of `m_lmb_down` when `MixerSlider::MouseEvent` reaches its last `if`. -/
def latched (D : Decls) (s : MixerSlider) (e : MouseData) (mx my : Nat) : Prop :=
  if e.buttons &&& Qt_LeftButton ≠ 0 then
    s.m_lmb_down = true ∨
      (D.mouse_over_mute_area s.toMixerMeter mx my = true ∧ e.type = QEvent_MouseButtonPress)
  else
    s.m_lmb_down = true ∧ D.mouse_over_mute_area s.toMixerMeter mx my = true

/-- The slider after a left-button press on the mute box (row 120) and a move, button still
held, to row 105, which is outside the mute area and outside the slider. -/
def exLatched : World × MixerSlider :=
  let r1 := exSlider.MouseEvent exDecls exWorld ⟨Qt_LeftButton, QEvent_MouseButtonPress⟩ 0 120
  r1.2.MouseEvent exDecls r1.1 ⟨Qt_LeftButton, QEvent_MouseMove⟩ 0 105

/-- The three statements that build one slider in the loop of `UpdateSources`. -/
def build_slider (D : Decls) (w : World) (src : OBSSource) (x height channel_width : Int) :
    World × MixerSlider :=
  let r := MixerSlider.new w src x 0 height channel_width
  let r := r.2.set_type r.1 obs_fader_type.OBS_FADER_LOG
  r.2.set_source D r.1 src

/-- The source filter of the callback in `UpdateSources`. -/
def is_active_audio (src : OBSSource) : Bool :=
  (src.output_flags &&& OBS_SOURCE_AUDIO) != 0 && src.active && src.audio_active

/-- A slider holds a live logarithmic fader that is attached to the slider's source and
carries the callback `fader_update` exactly once, with the slider as its data. -/
def SliderOk (w : World) (s : MixerSlider) : Prop :=
  ∃ i f, s.m_fader = some i ∧ w.faders[i]? = some f ∧
    f.type = obs_fader_type.OBS_FADER_LOG ∧ f.source = some s.m_source ∧
    f.callbacks = [⟨FaderCallbackFn.fader_update, s.this⟩] ∧
    f.callbacks.count ⟨FaderCallbackFn.fader_update, s.this⟩ = 1 ∧ f.destroyed = false

/-- The renderer of the examples before its first `UpdateSources`. -/
def exRenderer : AudioMixerRenderer := { m_height := 100, m_channel_width := 3, m_sliders := [] }

/-- A second source: audio output, active, but not audio-active. -/
def exSilent : OBSSource :=
  { id := 2, name := ['B', 'G', 'M'], output_flags := 3, active := true, audio_active := false }

/-- A host that enumerates `exSilent`, then `exSource`. -/
def exWorld2 : World :=
  { sources := [exSilent, exSource], faders := [], heap_next := 0, calls := [] }

/-! ## Arithmetic of the embedding -/

/-- C10: `MixerSlider::set_source` passes to `CreateLabel` the source name itself when it has
at most 30 characters and otherwise its first 27 characters followed by "..."; the text never
exceeds 30 characters and the first `min(length, 27)` characters of the name start it. -/
theorem set_source_label_bounded (D : Decls) (w : World) (s : MixerSlider) (src : OBSSource) :
    ∃ text : List Char,
      (s.set_source D w src).2.m_label = some ⟨text, 140, 1⟩ ∧
      (src.name.length ≤ 30 → text = src.name) ∧
      (30 < src.name.length → text = src.name.take 27 ++ ['.', '.', '.']) ∧
      text.length ≤ 30 ∧
      src.name.take (min src.name.length 27) <+: text := by
  refine ⟨label_text src.name, rfl, ?_, ?_, ?_, ?_⟩
  · intro h
    simp [label_text, Nat.not_lt.mpr h]
  · intro h
    simp [label_text, h]
  · by_cases h : 30 < src.name.length
    · simp [label_text, h]
    · simp only [label_text, gt_iff_lt, h, if_false]
      omega
  · by_cases h : 30 < src.name.length
    · have h27 : min src.name.length 27 = 27 := by omega
      simp only [label_text, gt_iff_lt, h, if_true, h27]
      exact List.prefix_append _ _
    · simp only [label_text, gt_iff_lt, h, if_false]
      exact List.take_prefix _ _

/-! ## C7: the slider track -/

theorem tools_menu_triggered_db_some {E : Type} (P : PluginDecls E)
    (hLoad : ∀ env db, (P.Config_Load env db).2 ≠ none) (s : PluginState E) :
    (tools_menu_triggered P s).Config_db ≠ none := by
  unfold tools_menu_triggered
  cases hdb : s.Config_db with
  | none => simpa using hLoad s.env none
  | some d => simp [hdb]

theorem triggers_loads_of_db_some {E : Type} (P : PluginDecls E) (n : Nat) :
    ∀ s : PluginState E, s.Config_db ≠ none → (triggers P n s).loads = s.loads := by
  induction n with
  | zero => intro s _; rfl
  | succ n ih =>
    intro s hs
    obtain ⟨d, hd⟩ := Option.ne_none_iff_exists'.mp hs
    have hstep : tools_menu_triggered P s =
        { s with calls := s.calls ++ [PluginCall.show s.Config_db] } := by
      simp [tools_menu_triggered, hd]
    have h1 : (tools_menu_triggered P s).Config_db ≠ none := by rw [hstep]; exact hs
    have h2 : (tools_menu_triggered P s).loads = s.loads := by
      rw [hstep]; simp [PluginState.loads, List.count_append]
    show (triggers P n (tools_menu_triggered P s)).loads = s.loads
    rw [ih _ h1, h2]

theorem tools_menu_triggered_loads_le {E : Type} (P : PluginDecls E) (s : PluginState E) :
    (tools_menu_triggered P s).loads ≤ s.loads + 1 := by
  unfold tools_menu_triggered
  cases hdb : s.Config_db with
  | none => simp [PluginState.loads, List.count_append]
  | some d => simp [PluginState.loads, List.count_append]

/-- C5: a trigger of the tools-menu action calls `Config::Load` exactly when `Config::db` is
null at that moment and then calls `Config::db->show()` in both cases; if `Config::Load`
leaves `Config::db` non-null, `n` triggers in a row call `Config::Load` at most once and
every `show()` of the first trigger has a non-null receiver; `obs_module_unload` resets
`Config::db` to null, so that the next trigger loads again. -/
theorem tools_menu_lazy_load {E : Type} (P : PluginDecls E) (s : PluginState E) (n : Nat) :
    (tools_menu_triggered P s).calls =
        s.calls ++ (if s.Config_db = none then [PluginCall.Config_Load] else []) ++
          [PluginCall.show (tools_menu_triggered P s).Config_db] ∧
    ((∀ env db, (P.Config_Load env db).2 ≠ none) →
        (triggers P n s).loads ≤ s.loads + 1 ∧
        (tools_menu_triggered P s).Config_db ≠ none) ∧
    (obs_module_unload P s).Config_db = none ∧
    (tools_menu_triggered P (obs_module_unload P s)).loads =
        (obs_module_unload P s).loads + 1 := by
  refine ⟨?_, ?_, rfl, ?_⟩
  · unfold tools_menu_triggered
    cases hdb : s.Config_db with
    | none => simp
    | some d => simp
  · intro hLoad
    refine ⟨?_, tools_menu_triggered_db_some P hLoad s⟩
    cases n with
    | zero => exact Nat.le_succ _
    | succ n =>
      show (triggers P n (tools_menu_triggered P s)).loads ≤ s.loads + 1
      rw [triggers_loads_of_db_some P n _ (tools_menu_triggered_db_some P hLoad s)]
      exact tools_menu_triggered_loads_le P s
  · simp [tools_menu_triggered, obs_module_unload, PluginState.loads, List.count_append]

/-- C5 at a concrete plugin: three triggers after `obs_module_load` load once. -/
theorem tools_menu_lazy_load_witness :
    (∀ env db, (exPluginDecls.Config_Load env db).2 ≠ none) ∧
    (triggers exPluginDecls 3 exPluginState).loads ≤ exPluginState.loads + 1 ∧
    (triggers exPluginDecls 3 exPluginState).calls =
      [PluginCall.add_tools_menu_qaction, PluginCall.Config_Load, PluginCall.show (some 7),
       PluginCall.show (some 7), PluginCall.show (some 7)] :=
  ⟨fun _ _ => by simp [exPluginDecls],
   ((tools_menu_lazy_load exPluginDecls exPluginState 3).2.1
      (fun _ _ => by simp [exPluginDecls])).1,
   by decide⟩

/-! ## MouseEvent -/

@[simp] theorem modifyFader_calls (w : World) (p : Option Nat) (f : obs_fader → obs_fader) :
    (w.modifyFader p f).calls = w.calls := by
  cases p <;> rfl

@[simp] theorem obs_fader_set_deflection_calls (w : World) (p : Option Nat) (d : FloatVal) :
    (obs_fader_set_deflection w p d).calls = w.calls ++ [HostCall.fader_set_deflection p d] := by
  simp [obs_fader_set_deflection]

@[simp] theorem obs_source_set_muted_calls (w : World) (src : OBSSource) (m : Bool) :
    (obs_source_set_muted w src m).calls = w.calls ++ [HostCall.source_set_muted src m] := rfl

@[simp] theorem obs_source_set_muted_faders (w : World) (src : OBSSource) (m : Bool) :
    (obs_source_set_muted w src m).faders = w.faders := rfl

theorem MouseEvent_deflections (D : Decls) (w : World) (s : MixerSlider) (e : MouseData)
    (mx my : Nat) :
    (dragging D s e mx my →
      (s.MouseEvent D w e mx my).1.deflections =
        w.deflections ++ [(s.m_fader, drag_deflection s.m_y s.m_height my)]) ∧
    (¬ dragging D s e mx my → (s.MouseEvent D w e mx my).1.deflections = w.deflections) ∧
    ((s.MouseEvent D w e mx my).2.m_dragging_volume = true ↔ dragging D s e mx my) ∧
    (¬ (e.buttons &&& Qt_LeftButton ≠ 0) → (s.MouseEvent D w e mx my).1.faders = w.faders) := by
  unfold MixerSlider.MouseEvent dragging
  by_cases hl : e.buttons &&& Qt_LeftButton ≠ 0 <;>
  by_cases ho : D.mouse_over_slider s.toMixerMeter mx my = true <;>
  by_cases hd : s.m_dragging_volume = true <;>
  by_cases hm : D.mouse_over_mute_area s.toMixerMeter mx my = true <;>
  by_cases hp : e.type = 2 <;>
  by_cases hr : e.type = 3 <;>
  by_cases hb : s.m_lmb_down = true <;>
  simp [hl, ho, hd, hm, hp, hr, hb, World.deflections, MixerSlider.set_db,
    List.filterMap_append, QEvent_MouseButtonPress, QEvent_MouseButtonRelease]

theorem MouseEvent_mutes (D : Decls) (w : World) (s : MixerSlider) (e : MouseData)
    (mx my : Nat) :
    ((e.type = QEvent_MouseButtonRelease ∧ latched D s e mx my) →
      (s.MouseEvent D w e mx my).1.mutes = w.mutes ++ [(s.m_source, !s.m_muted)] ∧
      (s.MouseEvent D w e mx my).2.m_lmb_down = false) ∧
    (¬ (e.type = QEvent_MouseButtonRelease ∧ latched D s e mx my) →
      (s.MouseEvent D w e mx my).1.mutes = w.mutes ∧
      ((s.MouseEvent D w e mx my).2.m_lmb_down = true ↔ latched D s e mx my)) ∧
    (s.MouseEvent D w e mx my).2.toMixerMeter = s.toMixerMeter ∧
    (s.MouseEvent D w e mx my).2.m_fader = s.m_fader := by
  unfold MixerSlider.MouseEvent latched
  by_cases hl : e.buttons &&& Qt_LeftButton ≠ 0 <;>
  by_cases ho : D.mouse_over_slider s.toMixerMeter mx my = true <;>
  by_cases hd : s.m_dragging_volume = true <;>
  by_cases hm : D.mouse_over_mute_area s.toMixerMeter mx my = true <;>
  by_cases hp : e.type = 2 <;>
  by_cases hr : e.type = 3 <;>
  by_cases hb : s.m_lmb_down = true <;>
  simp [hl, ho, hd, hm, hp, hr, hb, World.mutes, MixerSlider.set_db,
    List.filterMap_append, QEvent_MouseButtonPress, QEvent_MouseButtonRelease]

/-- C4: `MixerSlider::MouseEvent` sets the fader deflection exactly when the left button is
held and the pointer is over the slider or `m_dragging_volume` was already true, and
`m_dragging_volume` is true after the call exactly in that case; an event without the left
button held makes no deflection call, leaves every fader as it was and clears
`m_dragging_volume`. -/
theorem MouseEvent_drag_latched (D : Decls) (w : World) (s : MixerSlider) (e : MouseData)
    (mx my : Nat) :
    ((e.buttons &&& Qt_LeftButton ≠ 0 ∧
        (D.mouse_over_slider s.toMixerMeter mx my = true ∨ s.m_dragging_volume = true)) →
      (s.MouseEvent D w e mx my).1.deflections =
        w.deflections ++ [(s.m_fader, drag_deflection s.m_y s.m_height my)]) ∧
    (¬ (e.buttons &&& Qt_LeftButton ≠ 0 ∧
        (D.mouse_over_slider s.toMixerMeter mx my = true ∨ s.m_dragging_volume = true)) →
      (s.MouseEvent D w e mx my).1.deflections = w.deflections) ∧
    ((s.MouseEvent D w e mx my).2.m_dragging_volume = true ↔
      (e.buttons &&& Qt_LeftButton ≠ 0 ∧
        (D.mouse_over_slider s.toMixerMeter mx my = true ∨ s.m_dragging_volume = true))) ∧
    (¬ (e.buttons &&& Qt_LeftButton ≠ 0) →
      (s.MouseEvent D w e mx my).1.deflections = w.deflections ∧
      (s.MouseEvent D w e mx my).1.faders = w.faders ∧
      (s.MouseEvent D w e mx my).2.m_dragging_volume = false) := by
  obtain ⟨h1, h2, h3, h4⟩ := MouseEvent_deflections D w s e mx my
  refine ⟨h1, h2, h3, fun hl => ⟨h2 fun h => hl h.1, h4 hl, ?_⟩⟩
  cases hv : (s.MouseEvent D w e mx my).2.m_dragging_volume with
  | false => rfl
  | true => exact absurd (h3.mp hv).1 hl

/-- C3: a `MouseButtonPress` with the left button held and the pointer over the mute area
calls `obs_source_set_muted` not at all; a following `MouseButtonRelease` with no button held
and the pointer still over the mute area calls it exactly once, with the negation of
`m_muted`, and leaves `m_lmb_down` false; if that release happens with the pointer outside
the mute area, `obs_source_set_muted` is not called. -/
theorem MouseEvent_click_toggles_mute (D : Decls) (w : World) (s : MixerSlider)
    (e1 e2 : MouseData) (mx1 my1 mx2 my2 : Nat)
    (h1t : e1.type = QEvent_MouseButtonPress) (h1b : e1.buttons &&& Qt_LeftButton ≠ 0)
    (h1m : D.mouse_over_mute_area s.toMixerMeter mx1 my1 = true)
    (h2t : e2.type = QEvent_MouseButtonRelease) (h2b : e2.buttons = 0) :
    (s.MouseEvent D w e1 mx1 my1).1.mutes = w.mutes ∧
    (D.mouse_over_mute_area s.toMixerMeter mx2 my2 = true →
      ((s.MouseEvent D w e1 mx1 my1).2.MouseEvent D (s.MouseEvent D w e1 mx1 my1).1
          e2 mx2 my2).1.mutes = w.mutes ++ [(s.m_source, !s.m_muted)] ∧
      ((s.MouseEvent D w e1 mx1 my1).2.MouseEvent D (s.MouseEvent D w e1 mx1 my1).1
          e2 mx2 my2).2.m_lmb_down = false) ∧
    (D.mouse_over_mute_area s.toMixerMeter mx2 my2 = false →
      ((s.MouseEvent D w e1 mx1 my1).2.MouseEvent D (s.MouseEvent D w e1 mx1 my1).1
          e2 mx2 my2).1.mutes = w.mutes ∧
      ((s.MouseEvent D w e1 mx1 my1).2.MouseEvent D (s.MouseEvent D w e1 mx1 my1).1
          e2 mx2 my2).2.m_lmb_down = false) := by
  obtain ⟨-, hb1, hmeter, -⟩ := MouseEvent_mutes D w s e1 mx1 my1
  have hne : ¬ (e1.type = QEvent_MouseButtonRelease ∧ latched D s e1 mx1 my1) := by
    rintro ⟨h, -⟩
    rw [h1t] at h
    exact absurd h (by decide)
  obtain ⟨hm1, hl1⟩ := hb1 hne
  have hlat : (s.MouseEvent D w e1 mx1 my1).2.m_lmb_down = true := by
    rw [hl1]
    unfold latched
    rw [if_pos h1b]
    exact Or.inr ⟨h1m, h1t⟩
  have h2l : ¬ (e2.buttons &&& Qt_LeftButton ≠ 0) := by simp [h2b]
  obtain ⟨ha2, hb2, -, -⟩ :=
    MouseEvent_mutes D (s.MouseEvent D w e1 mx1 my1).1 (s.MouseEvent D w e1 mx1 my1).2 e2 mx2 my2
  refine ⟨hm1, ?_, ?_⟩
  · intro hover
    have hl2 : latched D (s.MouseEvent D w e1 mx1 my1).2 e2 mx2 my2 := by
      unfold latched
      rw [if_neg h2l, hmeter]
      exact ⟨hlat, hover⟩
    obtain ⟨hx, hy⟩ := ha2 ⟨h2t, hl2⟩
    rw [hx, hm1, hmeter]
    exact ⟨rfl, hy⟩
  · intro hout
    have hl2 : ¬ latched D (s.MouseEvent D w e1 mx1 my1).2 e2 mx2 my2 := by
      unfold latched
      rw [if_neg h2l, hmeter, hout]
      simp
    obtain ⟨hx, hy⟩ := hb2 fun h => hl2 h.2
    refine ⟨hx.trans hm1, ?_⟩
    cases hv : ((s.MouseEvent D w e1 mx1 my1).2.MouseEvent D (s.MouseEvent D w e1 mx1 my1).1
        e2 mx2 my2).2.m_lmb_down with
    | false => rfl
    | true => exact absurd (hy.mp hv) hl2

/-- C3 at a concrete slider: press and release at row 120, inside the mute area. -/
theorem MouseEvent_click_toggles_mute_witness :
    ((exSlider.MouseEvent exDecls exWorld ⟨1, 2⟩ 0 120).2.MouseEvent exDecls
        (exSlider.MouseEvent exDecls exWorld ⟨1, 2⟩ 0 120).1 ⟨0, 3⟩ 0 120).1.mutes =
      exWorld.mutes ++ [(exSlider.m_source, !exSlider.m_muted)] :=
  ((MouseEvent_click_toggles_mute exDecls exWorld exSlider ⟨1, 2⟩ ⟨0, 3⟩ 0 120 0 120
    rfl (by decide) rfl rfl rfl).2.1 rfl).1

/-- C9: after a left-button press on the mute box and a move off it with the button held, a
`MouseButtonRelease` event that still reports the left button (another button was released)
calls `obs_source_set_muted` although the pointer is not over the mute area. -/
theorem MouseEvent_stale_latch_toggles_mute :
    exLatched.1.mutes = [] ∧
    exDecls.mouse_over_mute_area exLatched.2.toMixerMeter 0 105 = false ∧
    (exLatched.2.MouseEvent exDecls exLatched.1
        ⟨Qt_LeftButton, QEvent_MouseButtonRelease⟩ 0 105).1.mutes = [(exSource, true)] := by
  decide

/-! ## The deflection of a drag -/

theorem modify_length_append {α : Type} (f : α → α) (l : List α) (a : α) :
    List.modify f l.length (l ++ [a]) = l ++ [f a] := by
  induction l with
  | nil => rfl
  | cons b l ih => simp [ih]

theorem modifyFader_faders_length (w : World) (p : Option Nat) (f : obs_fader → obs_fader) :
    (w.modifyFader p f).faders.length = w.faders.length := by
  cases p <;> simp [World.modifyFader]

theorem UpdateSources_loop_cons (D : Decls) (src : OBSSource) (rest : List OBSSource)
    (w : World) (r : AudioMixerRenderer) (x : Int) :
    UpdateSources_loop D (src :: rest) w r x =
      UpdateSources_loop D rest (build_slider D w src x r.m_height r.m_channel_width).1
        { r with m_sliders :=
            r.m_sliders ++ [(build_slider D w src x r.m_height r.m_channel_width).2] }
        (truncToInt ((x : ℚ) + ((r.m_channel_width * D.get_width
          (build_slider D w src x r.m_height r.m_channel_width).2.toMixerMeter : Int) : ℚ) *
            (5 / 2))) := rfl

theorem build_slider_spec (D : Decls) (w : World) (src : OBSSource)
    (x height channel_width : Int) :
    (build_slider D w src x height channel_width).1.faders =
      w.faders ++ [⟨obs_fader_type.OBS_FADER_LOG, [⟨FaderCallbackFn.fader_update, w.heap_next⟩],
        some src, none, false⟩] ∧
    (build_slider D w src x height channel_width).1.heap_next = w.heap_next + 1 ∧
    (build_slider D w src x height channel_width).2.this = w.heap_next ∧
    (build_slider D w src x height channel_width).2.m_fader = some w.faders.length ∧
    (build_slider D w src x height channel_width).2.m_source = src := by
  simp [build_slider, MixerSlider.new, MixerSlider.set_type, MixerSlider.set_source,
    MixerSlider.set_db, MixerMeter.new, MixerMeter.set_source, MixerMeter.set_type,
    obs_fader_remove_callback, obs_fader_destroy, obs_fader_create, obs_fader_add_callback,
    obs_fader_detach_source, obs_fader_attach_source, World.modifyFader, modify_length_append]

theorem SliderOk_append {w w' : World} {l : List obs_fader} (h : w'.faders = w.faders ++ l)
    {s : MixerSlider} (hs : SliderOk w s) : SliderOk w' s := by
  obtain ⟨i, f, h1, h2, h3⟩ := hs
  refine ⟨i, f, h1, ?_, h3⟩
  have hi : i < w.faders.length := (List.getElem?_eq_some_iff.mp h2).1
  rw [h, List.getElem?_append_left hi]
  exact h2

theorem build_slider_ok (D : Decls) (w : World) (src : OBSSource)
    (x height channel_width : Int) :
    SliderOk (build_slider D w src x height channel_width).1
      (build_slider D w src x height channel_width).2 := by
  obtain ⟨hf, -, ht, hm, hsrc⟩ := build_slider_spec D w src x height channel_width
  refine ⟨w.faders.length,
    ⟨obs_fader_type.OBS_FADER_LOG, [⟨FaderCallbackFn.fader_update, w.heap_next⟩], some src, none,
      false⟩, hm, ?_, rfl, ?_, ?_, ?_, rfl⟩
  · rw [hf]
    simp
  · rw [hsrc]
  · rw [ht]
  · rw [ht]
    simp

theorem UpdateSources_loop_spec (D : Decls) :
    ∀ (srcs : List OBSSource) (w : World) (r : AudioMixerRenderer) (x : Int),
      (UpdateSources_loop D srcs w r x).2.m_sliders.map (fun s => s.m_source) =
        r.m_sliders.map (fun s => s.m_source) ++ srcs ∧
      (UpdateSources_loop D srcs w r x).2.m_sliders.map (fun s => s.this) =
        r.m_sliders.map (fun s => s.this) ++ List.range' w.heap_next srcs.length ∧
      ((∀ s ∈ r.m_sliders, SliderOk w s) →
        ∀ s ∈ (UpdateSources_loop D srcs w r x).2.m_sliders,
          SliderOk (UpdateSources_loop D srcs w r x).1 s) := by
  intro srcs
  induction srcs with
  | nil =>
    intro w r x
    exact ⟨by simp [UpdateSources_loop], by simp [UpdateSources_loop], fun h => h⟩
  | cons src rest ih =>
    intro w r x
    obtain ⟨hf, hn, ht, -, hsrc⟩ := build_slider_spec D w src x r.m_height r.m_channel_width
    rw [UpdateSources_loop_cons]
    obtain ⟨h1, h2, h3⟩ := ih (build_slider D w src x r.m_height r.m_channel_width).1
      { r with m_sliders :=
          r.m_sliders ++ [(build_slider D w src x r.m_height r.m_channel_width).2] }
      (truncToInt ((x : ℚ) + ((r.m_channel_width * D.get_width
        (build_slider D w src x r.m_height r.m_channel_width).2.toMixerMeter : Int) : ℚ) *
          (5 / 2)))
    refine ⟨?_, ?_, ?_⟩
    · rw [h1]
      simp [hsrc]
    · rw [h2]
      simp [ht, hn, List.range'_succ]
    · intro hok
      apply h3
      intro s hs
      rcases List.mem_append.mp hs with hs | hs
      · exact SliderOk_append hf (hok s hs)
      · rw [List.mem_singleton.mp hs]
        exact build_slider_ok D w src x r.m_height r.m_channel_width

theorem obs_enum_sources_filter (acc srcs : List OBSSource) :
    obs_enum_sources enum_callback acc srcs = acc ++ srcs.filter is_active_audio := by
  induction srcs generalizing acc with
  | nil => simp [obs_enum_sources]
  | cons src rest ih =>
    unfold obs_enum_sources
    by_cases h1 : ((src.output_flags &&& OBS_SOURCE_AUDIO) != 0 && src.active) = true
    · by_cases h2 : src.audio_active = true
      · have hp : is_active_audio src = true := by
          simp only [is_active_audio, h1, h2, Bool.and_self]
        simp only [enum_callback, h1, h2, if_true, ih, List.filter_cons, hp]
        simp
      · have hp : is_active_audio src = false := by
          simp [is_active_audio, h2]
        simp only [enum_callback, h1, h2, if_true, ih, List.filter_cons, hp]
        simp
    · have hp : is_active_audio src = false := by
        simp only [is_active_audio]
        simp only [Bool.not_eq_true] at h1
        rw [h1]
        rfl
      simp only [enum_callback, h1, ih, List.filter_cons, hp]
      simp

theorem destroy_sources_heap (l : List MixerSlider) :
    ∀ w : World, (l.foldl MixerSlider.destroy w).sources = w.sources ∧
      (l.foldl MixerSlider.destroy w).heap_next = w.heap_next := by
  induction l with
  | nil => intro w; exact ⟨rfl, rfl⟩
  | cons s l ih =>
    intro w
    obtain ⟨h1, h2⟩ := ih (MixerSlider.destroy w s)
    rw [List.foldl_cons, h1, h2]
    cases hf : s.m_fader <;>
      simp [MixerSlider.destroy, obs_fader_remove_callback, obs_fader_destroy,
        World.modifyFader, hf]

theorem modify_append_singleton {α : Type} (f : α → α) (l : List α) (a : α) (n : Nat)
    (hn : n = l.length) : List.modify f n (l ++ [a]) = l ++ [f a] := by
  subst hn
  exact modify_length_append f l a

theorem set_type_faders (w : World) (s : MixerSlider) (t : obs_fader_type) :
    ∃ l : List obs_fader, l.length = w.faders.length ∧
      (s.set_type w t).1.faders =
        l ++ [⟨t, [⟨FaderCallbackFn.fader_update, s.this⟩], none, none, false⟩] ∧
      (s.set_type w t).2.m_fader = some w.faders.length ∧
      (∀ j, s.m_fader ≠ some j → l[j]? = w.faders[j]?) ∧
      (∀ i f, s.m_fader = some i → w.faders[i]? = some f →
        l[i]? = some { f with callbacks := [], source := none, destroyed := true }) := by
  cases hf : s.m_fader with
  | none =>
    refine ⟨w.faders, rfl, ?_, ?_, fun _ _ => rfl, fun i f h => by simp at h⟩
    · simp [MixerSlider.set_type, MixerMeter.set_type, obs_fader_remove_callback,
        obs_fader_destroy, obs_fader_create, obs_fader_add_callback, World.modifyFader, hf,
        modify_length_append]
    · simp [MixerSlider.set_type, MixerMeter.set_type, obs_fader_remove_callback,
        obs_fader_destroy, obs_fader_create, obs_fader_add_callback, World.modifyFader, hf]
  | some i =>
    refine ⟨(obs_fader_destroy (obs_fader_remove_callback w (some i)
      FaderCallbackFn.fader_update s.this) (some i)).faders, ?_, ?_, ?_, ?_, ?_⟩
    · simp [obs_fader_remove_callback, obs_fader_destroy, World.modifyFader]
    · simp only [MixerSlider.set_type, MixerMeter.set_type, obs_fader_create,
        obs_fader_add_callback, World.modifyFader, hf]
      rw [modify_append_singleton _ _ _ _ rfl]
      simp
    · simp [MixerSlider.set_type, MixerMeter.set_type, obs_fader_remove_callback,
        obs_fader_destroy, obs_fader_create, obs_fader_add_callback, World.modifyFader, hf]
    · intro j hj
      have hij : i ≠ j := fun h => hj (by rw [h])
      simp only [obs_fader_remove_callback, obs_fader_destroy, World.modifyFader]
      rw [List.getElem?_modify_ne _ _ hij, List.getElem?_modify_ne _ _ hij]
    · intro i' f hi hfi
      have : i = i' := by simpa using hi
      subst this
      simp [obs_fader_remove_callback, obs_fader_destroy, World.modifyFader,
        List.getElem?_modify_eq, hfi]

/-- C6: after `set_type(t)` the slider holds a newly created fader of type `t` whose only
callback is `fader_update` with this slider as data, registered once; the fader it held
before is destroyed and no longer carries that callback, and no other fader is touched.
Every slider built by `AudioMixerRenderer::UpdateSources` ends with a live logarithmic fader
that is attached to the slider's own source and carries exactly that one callback. -/
theorem set_type_owns_one_fader (D : Decls) (w : World) (r : AudioMixerRenderer)
    (s : MixerSlider) (t : obs_fader_type) :
    ((s.set_type w t).2.m_fader = some w.faders.length ∧
      (s.set_type w t).2.this = s.this ∧
      (s.set_type w t).1.faders.length = w.faders.length + 1 ∧
      (∃ f, (s.set_type w t).1.faders[w.faders.length]? = some f ∧ f.type = t ∧
        f.callbacks = [⟨FaderCallbackFn.fader_update, s.this⟩] ∧
        f.callbacks.count ⟨FaderCallbackFn.fader_update, s.this⟩ = 1 ∧
        f.destroyed = false) ∧
      (∀ i f, s.m_fader = some i → w.faders[i]? = some f →
        ∃ f', (s.set_type w t).1.faders[i]? = some f' ∧ f'.destroyed = true ∧
          ⟨FaderCallbackFn.fader_update, s.this⟩ ∉ f'.callbacks) ∧
      (∀ j, j < w.faders.length → s.m_fader ≠ some j →
        (s.set_type w t).1.faders[j]? = w.faders[j]?)) ∧
    (∀ b ∈ (r.UpdateSources D w).2.m_sliders,
      ∃ i f, b.m_fader = some i ∧ (r.UpdateSources D w).1.faders[i]? = some f ∧
        f.type = obs_fader_type.OBS_FADER_LOG ∧ f.source = some b.m_source ∧
        f.callbacks = [⟨FaderCallbackFn.fader_update, b.this⟩] ∧
        f.callbacks.count ⟨FaderCallbackFn.fader_update, b.this⟩ = 1 ∧
        f.destroyed = false) := by
  constructor
  · obtain ⟨l, hlen, hfad, hm, hother, hold⟩ := set_type_faders w s t
    refine ⟨hm, rfl, by rw [hfad]; simp [hlen], ?_, ?_, ?_⟩
    · refine ⟨⟨t, [⟨FaderCallbackFn.fader_update, s.this⟩], none, none, false⟩, ?_, rfl, rfl,
        by simp, rfl⟩
      rw [hfad, ← hlen]
      simp
    · intro i f hi hfi
      have hil : i < l.length := by
        rw [hlen]
        exact (List.getElem?_eq_some_iff.mp hfi).1
      refine ⟨{ f with callbacks := [], source := none, destroyed := true }, ?_, rfl, by simp⟩
      rw [hfad, List.getElem?_append_left hil]
      exact hold i f hi hfi
    · intro j hj hne
      rw [hfad, List.getElem?_append_left (by rw [hlen]; exact hj)]
      exact hother j hne
  · intro b hb
    exact (UpdateSources_loop_spec D _ _ _ _).2.2 (fun s hs => by simp at hs) b hb

/-- C1: after `AudioMixerRenderer::UpdateSources` the sources of the sliders in `m_sliders`
are exactly the enumerated sources that have the `OBS_SOURCE_AUDIO` output flag, are active
and are audio-active, in enumeration order and one slider each; the sliders are distinct
objects allocated during the call, so none of them is a slider that was in the list (or
allocated at all) before the call. -/
theorem UpdateSources_one_slider_per_audio_source (D : Decls) (w : World)
    (r : AudioMixerRenderer) :
    (r.UpdateSources D w).2.m_sliders.map (fun s => s.m_source) =
      w.sources.filter (fun src =>
        (src.output_flags &&& OBS_SOURCE_AUDIO) != 0 && src.active && src.audio_active) ∧
    ((r.UpdateSources D w).2.m_sliders.map (fun s => s.this)).Nodup ∧
    (∀ s ∈ (r.UpdateSources D w).2.m_sliders, w.heap_next ≤ s.this) ∧
    ((∀ old ∈ r.m_sliders, old.this < w.heap_next) →
      ∀ s ∈ (r.UpdateSources D w).2.m_sliders, ∀ old ∈ r.m_sliders, s.this ≠ old.this) := by
  obtain ⟨hsrc, hheapn⟩ := destroy_sources_heap r.m_sliders w
  obtain ⟨h1, h2, -⟩ := UpdateSources_loop_spec D
    (obs_enum_sources enum_callback [] (r.m_sliders.foldl MixerSlider.destroy w).sources)
    (r.m_sliders.foldl MixerSlider.destroy w) { r with m_sliders := [] } 35
  have hthis : (r.UpdateSources D w).2.m_sliders.map (fun s => s.this) =
      List.range' w.heap_next
        (obs_enum_sources enum_callback []
          (r.m_sliders.foldl MixerSlider.destroy w).sources).length := by
    show (UpdateSources_loop D _ _ _ 35).2.m_sliders.map (fun s => s.this) = _
    rw [h2, hheapn]
    rfl
  have hfresh : ∀ s ∈ (r.UpdateSources D w).2.m_sliders, w.heap_next ≤ s.this := by
    intro s hs
    have hmem : s.this ∈ (r.UpdateSources D w).2.m_sliders.map (fun s => s.this) :=
      List.mem_map_of_mem _ hs
    rw [hthis] at hmem
    exact (List.mem_range'_1.mp hmem).1
  refine ⟨?_, ?_, hfresh, ?_⟩
  · show (UpdateSources_loop D _ _ _ 35).2.m_sliders.map (fun s => s.m_source) = _
    rw [h1, hsrc, obs_enum_sources_filter]
    rfl
  · rw [hthis]
    exact List.nodup_range' _ _
  · intro hheap s hs old hold heq
    have hge := hfresh s hs
    have hlt := hheap old hold
    omega

/-- C1 at a concrete host: after a first `UpdateSources` a second one replaces the slider, and
only the audio-active source has a slider. -/
theorem UpdateSources_one_slider_per_audio_source_witness :
    (∀ old ∈ (exRenderer.UpdateSources exDecls exWorld2).2.m_sliders,
      old.this < (exRenderer.UpdateSources exDecls exWorld2).1.heap_next) ∧
    (((exRenderer.UpdateSources exDecls exWorld2).2.UpdateSources exDecls
      (exRenderer.UpdateSources exDecls exWorld2).1).2.m_sliders.map (fun s => s.m_source) =
        [exSource]) ∧
    (∀ s ∈ ((exRenderer.UpdateSources exDecls exWorld2).2.UpdateSources exDecls
        (exRenderer.UpdateSources exDecls exWorld2).1).2.m_sliders,
      ∀ old ∈ (exRenderer.UpdateSources exDecls exWorld2).2.m_sliders, s.this ≠ old.this) :=
  ⟨by decide,
   (UpdateSources_one_slider_per_audio_source exDecls
      (exRenderer.UpdateSources exDecls exWorld2).1
      (exRenderer.UpdateSources exDecls exWorld2).2).1.trans (by decide),
   (UpdateSources_one_slider_per_audio_source exDecls
      (exRenderer.UpdateSources exDecls exWorld2).1
      (exRenderer.UpdateSources exDecls exWorld2).2).2.2.2 (by decide)⟩

end Durchblick
